import Mathlib

/-!
Verification development for the Askar backend of the DIDComm Messaging
envelope protocol (`didcomm_messaging/askar/__init__.py`).

The development shallowly embeds the backend's operations:

* the cryptographic primitives library (key generation, ECDH-ES / ECDH-1PU
  key wrapping, AEAD encryption) is an external collaborator; it is modelled
  symbolically: keys are algorithm-tagged terms, wrap/AEAD ciphertexts are
  constructor terms recording exactly the inputs that the primitive binds,
  and the inverse operations succeed precisely when the recorded inputs
  match the supplied ones;
* the JWE envelope/builder layer and the multibase/multicodec encoders,
  which the backend imports from sibling modules, are modelled from the
  specification of their interfaces;
* the backend's own control flow (validation order, header construction,
  per-recipient loops, error mapping) is translated line by line from the
  source, and the encrypt/decrypt operations additionally emit a trace of
  the primitive operations they perform so that ordering properties can be
  stated.
-/

/-- Key algorithm identifiers used by the backend (mirror of `KeyAlg`). -/
inductive KeyAlg
  | ed25519
  | x25519
  | k256
  | xc20p
  | a128kw
  | a256kw
  | a128gcm
  | a256gcm
  | a128cbcHs256
  | a256cbcHs512
deriving DecidableEq, Repr

/-- Modelled from the spec: key material held by a primitive key handle,
either an opaque freshly generated secret (identified by a generation seed)
or imported raw public bytes. -/
inductive KeyMaterial
  | seed (n : Nat)
  | raw (bytes : List Nat)
deriving DecidableEq, Repr

/-- Modelled from the spec: an opaque key handle of the external
cryptographic primitives library (askar `Key`), tagged with its algorithm. -/
structure AKey where
  alg : KeyAlg
  material : KeyMaterial
deriving DecidableEq, Repr

/-- Header values appearing in JWE headers: strings or an embedded
public-key JWK (the JWK is modelled by the key it encodes). -/
inductive HVal
  | str (s : String)
  | jwk (pub : AKey)
deriving DecidableEq, Repr

/-- Modelled from the spec: symbolic byte strings crossing the protocol
boundary.  Ciphertexts, nonces and tags produced by the primitives are
terms recording the inputs the primitive binds. -/
inductive Bytes
  | raw (data : List Nat)
  | wrapEs (algId : String) (apu apv : Option String) (wrapAlg : KeyAlg)
      (epk recip cek : AKey)
  | wrap1pu (algId : String) (apu apv : Option String) (wrapAlg : KeyAlg)
      (epk sender recip : AKey) (ccTag : Bytes) (cek : AKey)
  | ctxt (cek : AKey) (msg aad : Bytes)
  | nonce (cek : AKey) (msg : Bytes)
  | tag (cek : AKey) (msg aad : Bytes)
  | protectedB64 (hdr : List (String × HVal))
deriving DecidableEq, Repr

/-- Errors raised by the backend: Python `ValueError`, the backend's
`CryptoServiceError`, and the primitive library's native `AskarError`. -/
inductive PyErr
  | valueError (msg : String)
  | cryptoServiceError (msg : String)
  | askarError (msg : String)
deriving DecidableEq, Repr

/-- Trace events recording the primitive/cryptographic operations an
encrypt or decrypt call performs, in order. -/
inductive Ev
  | genKey (key : AKey) (ephemeral : Bool)
  | setProtected (hdr : List (String × HVal))
  | aeadEncrypt (cek : AKey) (msg aad : Bytes)
  | wrapKeyEs (kid : String) (epk : AKey)
  | wrapKey1pu (kid : String) (epk : AKey) (ccTag : Bytes)
  | loadJwk
  | unwrapKey
  | aeadDecrypt
deriving DecidableEq, Repr

/- ## Encoding collaborators (modelled from the spec) -/

/-- Modelled from the spec: UTF-8 encoding of a single character. -/
def charUtf8 (c : Char) : List Nat :=
  let n := c.toNat
  if n < 0x80 then [n]
  else if n < 0x800 then [0xC0 + n / 64, 0x80 + n % 64]
  else if n < 0x10000 then
    [0xE0 + n / 4096, 0x80 + n / 64 % 64, 0x80 + n % 64]
  else
    [0xF0 + n / 262144, 0x80 + n / 4096 % 64, 0x80 + n / 64 % 64, 0x80 + n % 64]

/-- Modelled from the spec: UTF-8 encoding of a string. -/
def utf8Bytes (s : String) : List Nat :=
  s.data.flatMap charUtf8

/-- The base64url alphabet character for a 6-bit value. -/
def b64Char (n : Nat) : Char :=
  "ABCDEFGHIJKLMNOPQRSTUVWXYZabcdefghijklmnopqrstuvwxyz0123456789-_".data.getD n 'A'

/-- Modelled from the spec: base64url encoding (no padding) of a byte list. -/
def b64Chunks : List Nat → List Char
  | a :: b :: c :: rest =>
    let w := a * 65536 + b * 256 + c
    b64Char (w / 262144) :: b64Char (w / 4096 % 64) :: b64Char (w / 64 % 64) ::
      b64Char (w % 64) :: b64Chunks rest
  | [a, b] =>
    let w := a * 65536 + b * 256
    [b64Char (w / 262144), b64Char (w / 4096 % 64), b64Char (w / 64 % 64)]
  | [a] =>
    let w := a * 65536
    [b64Char (w / 262144), b64Char (w / 4096 % 64)]
  | [] => []

/-- Modelled from the spec: the jwe module's `b64url` helper, base64url
(no padding) over the UTF-8 bytes of a string. -/
def b64url (s : String) : String :=
  String.mk (b64Chunks (utf8Bytes s))

/-- The base58btc alphabet character for a value below 58. -/
def b58Char (n : Nat) : Char :=
  "123456789ABCDEFGHJKLMNPQRSTUVWXYZabcdefghijkmnopqrstuvwxyz".data.getD n '1'

/-- Base-58 digit loop, with fuel bounding the digit count. -/
def natToB58Go (fuel n : Nat) (acc : List Char) : List Char :=
  match fuel with
  | 0 => acc
  | fuel + 1 => if n = 0 then acc else natToB58Go fuel (n / 58) (b58Char (n % 58) :: acc)

/-- Base-58 digits of a natural number (most significant first). -/
def natToB58 (n : Nat) : List Char :=
  natToB58Go (n + 1) n []

/-- Big-endian interpretation of a byte list as a natural number. -/
def bytesToNat (l : List Nat) : Nat :=
  l.foldl (fun acc b => acc * 256 + b) 0

/-- Count of leading zero bytes (encoded as leading '1' characters). -/
def leadingZeros : List Nat → Nat
  | 0 :: rest => leadingZeros rest + 1
  | _ => 0

/-- Modelled from the spec: `multibase.encode(bytes, "base58btc")`, the
base58btc multibase encoding with its `z` prefix. -/
def multibaseEncode58 (bytes : List Nat) : String :=
  "z" ++ String.mk (List.replicate (leadingZeros bytes) '1' ++ natToB58 (bytesToNat bytes))

/-- Modelled from the spec: the multicodec varint tag bytes for a codec name
(`ed25519-pub` = 0xed, `x25519-pub` = 0xec, `secp256k1-pub` = 0xe7). -/
def codecTag (name : String) : List Nat :=
  if name = "ed25519-pub" then [0xed, 0x01]
  else if name = "x25519-pub" then [0xec, 0x01]
  else if name = "secp256k1-pub" then [0xe7, 0x01]
  else []

/-- Modelled from the spec: `multicodec.wrap(codec, bytes)` prefixes the
codec's varint tag. -/
def multicodecWrap (name : String) (bytes : List Nat) : List Nat :=
  codecTag name ++ bytes

/-- Modelled from the spec: `multicodec.unwrap(bytes)` splits a multicodec
tag off a byte string; an unrecognized tag fails, never silently defaults. -/
def multicodecUnwrap (bytes : List Nat) : Except PyErr (String × List Nat) :=
  match bytes with
  | 0xed :: 0x01 :: rest => .ok ("ed25519-pub", rest)
  | 0xec :: 0x01 :: rest => .ok ("x25519-pub", rest)
  | 0xe7 :: 0x01 :: rest => .ok ("secp256k1-pub", rest)
  | _ => .error (.valueError "Unrecognized multicodec tag")

/- ## Primitive key operations (modelled from the spec's interface) -/

/-- Modelled from the spec: public byte lengths accepted by the primitives
library when importing a public key. -/
def validPubLen : KeyAlg → Nat → Bool
  | .ed25519, 32 => true
  | .x25519, 32 => true
  | .k256, 33 => true
  | .k256, 65 => true
  | _, _ => false

/-- Modelled from the spec: `Key.from_public_bytes(alg, bytes)`; fails with
a native primitive error on inconsistent material. -/
def fromPublicBytes (alg : KeyAlg) (b : List Nat) : Except PyErr AKey :=
  if validPubLen alg b.length then .ok { alg := alg, material := .raw b }
  else .error (.askarError "invalid public key bytes")

/-- Modelled from the spec: the raw public bytes of a key handle
(`Key.get_public_bytes`); generated keys yield opaque deterministic bytes. -/
def pubBytes (k : AKey) : List Nat :=
  match k.material with
  | .raw b => b
  | .seed n => (List.range 32).map (fun i => n / 256 ^ i % 256)

/-- Modelled from the spec: `Key.from_jwk` parses a JWK header value back
into a key handle; a non-JWK value is a native primitive error. -/
def from_jwk (v : HVal) : Except PyErr AKey :=
  match v with
  | .jwk k => .ok k
  | .str _ => .error (.askarError "invalid jwk")

/- ## AskarKey (`AskarKey` class in the source) -/

/-- `AskarKey.codec_to_alg`: multicodec name to key algorithm. -/
def codec_to_alg (name : String) : Option KeyAlg :=
  if name = "ed25519-pub" then some .ed25519
  else if name = "x25519-pub" then some .x25519
  else if name = "secp256k1-pub" then some .k256
  else none

/-- `AskarKey.alg_to_codec`: key algorithm to multicodec name (inverse
table of `codec_to_alg`). -/
def alg_to_codec (alg : KeyAlg) : Option String :=
  match alg with
  | .ed25519 => some "ed25519-pub"
  | .x25519 => some "x25519-pub"
  | .k256 => some "secp256k1-pub"
  | _ => none

/-- `AskarKey.type_to_alg`: verification-method type to expected key
algorithm. -/
def type_to_alg (t : String) : Option KeyAlg :=
  if t = "Ed25519VerificationKey2018" then some .ed25519
  else if t = "X25519KeyAgreementKey2019" then some .x25519
  else if t = "Ed25519VerificationKey2020" then some .ed25519
  else if t = "X25519KeyAgreementKey2020" then some .x25519
  else if t = "EcdsaSecp256k1VerificationKey2019" then some .k256
  else none

/-- Public key wrapper of the backend: a primitive key handle, its kid, and
the cached canonical multikey string. -/
structure AskarKey where
  key : AKey
  kid : String
  multikey : String
deriving DecidableEq, Repr

/-- `AskarKey.__init__`: wraps a key handle and kid, deriving the cached
multikey; raises `ValueError` when the key's algorithm has no codec. -/
def AskarKey.init (key : AKey) (kid : String) : Except PyErr AskarKey :=
  match alg_to_codec key.alg with
  | none => .error (.valueError "Unsupported key type")
  | some codec =>
    .ok { key := key, kid := kid,
          multikey := multibaseEncode58 (multicodecWrap codec (pubBytes key)) }

/-- `AskarKey._multikey_to_key`: decode a multibase-encoded multicodec key
into a key handle.  The multibase decoder is an external collaborator and
is passed in as `decode`. -/
def multikey_to_key (decode : String → List Nat) (multikey : String) :
    Except PyErr AKey :=
  match multicodecUnwrap (decode multikey) with
  | .error e => .error e
  | .ok (codecName, keyBytes) =>
    match codec_to_alg codecName with
    | none => .error (.valueError "Unsupported key type: \x7bcodec.name\x7d")
    | some alg =>
      match fromPublicBytes alg keyBytes with
      | .ok k => .ok k
      | .error _ => .error (.valueError "Invalid key")

/-- Python truthiness of an optional string (absent or empty is falsy). -/
def truthy (o : Option String) : Bool :=
  match o with
  | some s => s ≠ ""
  | none => false

/-- `AskarKey._expected_alg_and_material_to_key`: resolve key material from
exactly one of `public_key_multibase` / `public_key_base58` under the
type-implied algorithm `alg`. -/
def expected_alg_and_material_to_key (decode : String → List Nat)
    (alg : KeyAlg) (public_key_multibase public_key_base58 : Option String) :
    Except PyErr AKey :=
  if truthy public_key_multibase ∧ truthy public_key_base58 then
    .error (.valueError "Only one of public_key_multibase or public_key_base58 must be given")
  else if ¬truthy public_key_multibase ∧ ¬truthy public_key_base58 then
    .error (.valueError "One of public_key_multibase or public_key_base58 must be given)")
  else if truthy public_key_multibase then
    match public_key_multibase with
    | none => .error (.valueError "Failed to parse key")
    | some mb =>
      let decoded := decode mb
      if decoded.length = 32 then
        match fromPublicBytes alg decoded with
        | .ok k => .ok k
        | .error _ => .error (.valueError "Invalid key")
      else
        match multikey_to_key decode mb with
        | .error e => .error e
        | .ok k =>
          if k.alg ≠ alg then .error (.valueError "Type and algorithm mismatch")
          else .ok k
  else if truthy public_key_base58 then
    match public_key_base58 with
    | none => .error (.valueError "Failed to parse key")
    | some b58 => fromPublicBytes alg (decode ("z" ++ b58))
  else
    .error (.valueError "Failed to parse key")

/-- Lookup of a field in a verification-method record (Python `dict.get`). -/
def vmGet (vm : List (String × String)) (k : String) : Option String :=
  vm.lookup k

/-- Modelled from the spec: Python `str.startswith`. -/
def strStartsWith (s p : String) : Bool :=
  p.data.isPrefixOf s.data

/-- `AskarKey.from_verification_method`: derive an `AskarKey` from a DID
Document verification-method record. -/
def from_verification_method (decode : String → List Nat)
    (vm : List (String × String)) : Except PyErr AskarKey :=
  let vm_type := vmGet vm "type"
  let ident := vmGet vm "id"
  let controller := vmGet vm "controller"
  if ¬truthy vm_type then .error (.valueError "Verification method missing type")
  else if ¬truthy ident then .error (.valueError "Verification method missing id")
  else if ¬truthy controller then
    .error (.valueError "Verification method missing controller")
  else
    match vm_type, ident, controller with
    | some vm_type, some ident, some controller =>
      let kid := if strStartsWith ident "#" then controller ++ "#" ++ ident else ident
      if vm_type = "Multikey" then
        match vmGet vm "publicKeyMultiBase" with
        | none => .error (.valueError "Multikey verification method missing key")
        | some multikey =>
          if multikey = "" then
            .error (.valueError "Multikey verification method missing key")
          else
            match multikey_to_key decode multikey with
            | .error e => .error e
            | .ok key => AskarKey.init key kid
      else
        match type_to_alg vm_type with
        | none =>
          .error (.valueError "Unsupported verification method type: \x7bvm_type\x7d")
        | some alg =>
          match expected_alg_and_material_to_key decode alg
              (vmGet vm "publicKeyMultiBase") (vmGet vm "publicKeyBase58") with
          | .error e => .error e
          | .ok key => AskarKey.init key kid
    | _, _, _ => .error (.valueError "Verification method missing type")

/- ## Secrets store (`AskarWithStore`) -/

/-- `AskarWithStore.fetch_key_by_kid`: fetch a key entry by kid from the
backing store (modelled as an association list); absence yields `None`,
presence wraps the stored key handle as an `AskarKey` under the requested
kid. -/
def fetch_key_by_kid (store : List (String × AKey)) (kid : String) :
    Except PyErr (Option AskarKey) :=
  match store.lookup kid with
  | none => .ok none
  | some k =>
    match AskarKey.init k kid with
    | .error e => .error e
    | .ok ak => .ok (some ak)

/- ## JWE envelope model (modelled from the spec) -/

/-- Modelled from the spec: one recipient entry of a JWE envelope — a
per-recipient header and the wrapped content-encryption key. -/
structure JweRecipient where
  encrypted_key : Bytes
  header : List (String × HVal)
deriving DecidableEq, Repr

/-- Modelled from the spec: a parsed JWE envelope — protected header,
recipient entries, ciphertext, nonce and tag. -/
structure JweEnvelope where
  protected_header : List (String × HVal)
  recipients : List JweRecipient
  ciphertext : Bytes
  iv : Bytes
  tag : Bytes
deriving DecidableEq, Repr

/-- String-valued lookup in a header (a non-string value reads as absent
where a string is expected). -/
def headerStr (hdr : List (String × HVal)) (k : String) : Option String :=
  match hdr.lookup k with
  | some (.str s) => some s
  | _ => none

/-- Python truthiness of an optional header value. -/
def truthyHVal (o : Option HVal) : Bool :=
  match o with
  | some (.str s) => s ≠ ""
  | some (.jwk _) => true
  | none => false

/-- Modelled from the spec: `JweEnvelope.get_recipient(kid)` — linear
lookup of the recipient entry by header `kid`, returning the entry with
the combined header view (per-recipient header over the protected header),
which is how the decrypt paths read `enc`/`epk`/`apu`/`apv` through the
recipient entry; absence is returned, not raised. -/
def get_recipient (w : JweEnvelope) (kid : String) : Option JweRecipient :=
  (w.recipients.find? (fun r => decide (r.header.lookup "kid" = some (HVal.str kid)))).map
    (fun r => { encrypted_key := r.encrypted_key,
                header := r.header ++ w.protected_header })

/-- Modelled from the spec: `JweEnvelope.combined_aad` — the AAD for the
payload AEAD, derived from the protected header's canonical base64url byte
serialization. -/
def combined_aad (w : JweEnvelope) : Bytes :=
  .protectedB64 w.protected_header

/- ## ECDH primitives (modelled from the spec's interface) -/

/-- Parse a key-wrap algorithm identifier string. -/
def parseWrapAlg (s : String) : Option KeyAlg :=
  if s = "A128KW" then some .a128kw
  else if s = "A256KW" then some .a256kw
  else none

/-- Parse a content-encryption algorithm identifier string. -/
def parseEncAlg (s : String) : Option KeyAlg :=
  if s = "A128GCM" then some .a128gcm
  else if s = "A256GCM" then some .a256gcm
  else if s = "A128CBC-HS256" then some .a128cbcHs256
  else if s = "A256CBC-HS512" then some .a256cbcHs512
  else if s = "XC20P" then some .xc20p
  else none

/-- Modelled from the spec: `ecdh.EcdhEs(...).receiver_unwrap_key` — the
ECDH-ES unwrap succeeds exactly when the wrap ciphertext was produced with
the matching KDF context (alg id, apu/apv), wrap algorithm, ephemeral key
and recipient key, returning the wrapped CEK; any mismatch is a native
primitive failure. -/
def receiver_unwrap_es (algId : String) (apu apv : Option String)
    (wrapAlgStr encAlgStr : String) (epk recipKey : AKey) (encKey : Bytes) :
    Except PyErr AKey :=
  match encKey with
  | .wrapEs algId2 apu2 apv2 wrapAlg2 epk2 recip2 cek =>
    if algId2 = algId ∧ apu2 = apu ∧ apv2 = apv ∧
        parseWrapAlg wrapAlgStr = some wrapAlg2 ∧ epk2 = epk ∧
        recip2 = recipKey ∧ parseEncAlg encAlgStr = some cek.alg then
      .ok cek
    else .error (.askarError "ecdh-es unwrap failure")
  | _ => .error (.askarError "ecdh-es unwrap failure")

/-- Modelled from the spec: `ecdh.Ecdh1PU(...).receiver_unwrap_key` — the
ECDH-1PU unwrap succeeds exactly when the wrap ciphertext was produced with
the matching KDF context (alg id, apu/apv, cc_tag), wrap algorithm,
ephemeral key, sender key and recipient key. -/
def receiver_unwrap_1pu (algId : String) (apu apv : Option String)
    (wrapAlgStr encAlgStr : String) (epk senderKey recipKey : AKey)
    (encKey ccTag : Bytes) : Except PyErr AKey :=
  match encKey with
  | .wrap1pu algId2 apu2 apv2 wrapAlg2 epk2 sender2 recip2 ccTag2 cek =>
    if algId2 = algId ∧ apu2 = apu ∧ apv2 = apv ∧
        parseWrapAlg wrapAlgStr = some wrapAlg2 ∧ epk2 = epk ∧
        sender2 = senderKey ∧ recip2 = recipKey ∧ ccTag2 = ccTag ∧
        parseEncAlg encAlgStr = some cek.alg then
      .ok cek
    else .error (.askarError "ecdh-1pu unwrap failure")
  | _ => .error (.askarError "ecdh-1pu unwrap failure")

/-- Modelled from the spec: `aead_decrypt` — succeeds exactly when the
ciphertext was produced under the same CEK and AAD and the supplied nonce
and tag authenticate, returning the plaintext. -/
def aead_decrypt (cek : AKey) (ct nonceB tagB aad : Bytes) :
    Except PyErr Bytes :=
  match ct with
  | .ctxt cek2 m aad2 =>
    if cek2 = cek ∧ aad2 = aad ∧ nonceB = .nonce cek m ∧ tagB = .tag cek m aad then
      .ok m
    else .error (.askarError "aead authentication failure")
  | _ => .error (.askarError "aead authentication failure")

/- ## AskarCryptoService.ecdh_es_encrypt -/

/-- The per-recipient loop of `ecdh_es_encrypt`: for each recipient an
ephemeral key on the recipient's curve is generated (seeds `g`, `g+1`, …)
and the CEK is wrapped for that recipient; the recipient entry carries
`kid` and the ephemeral public JWK. -/
def es_wrap_loop (cek : AKey) (g : Nat) :
    List (String × AskarKey) → List JweRecipient × List Ev
  | [] => ([], [])
  | (kid, recip_key) :: rest =>
    let epk : AKey := { alg := recip_key.key.alg, material := .seed g }
    let r : JweRecipient :=
      { encrypted_key := .wrapEs "ECDH-ES+A256KW" none none .a256kw epk recip_key.key cek,
        header := [("kid", .str kid), ("epk", .jwk epk)] }
    let (rs, evs) := es_wrap_loop cek (g + 1) rest
    (r :: rs, .genKey epk true :: .wrapKeyEs kid epk :: evs)

/-- `AskarCryptoService.ecdh_es_encrypt`: DIDComm v2 anonymous encryption.
Fresh keys are drawn from the seed supply starting at `g`; the returned
trace records the primitive operations in source order. -/
def ecdh_es_encrypt (g : Nat) (to_keys : List (String × AskarKey))
    (message : Bytes) : Except PyErr JweEnvelope × List Ev :=
  if to_keys.isEmpty then (.error (.valueError "No message recipients"), [])
  else
    let cek : AKey := { alg := .xc20p, material := .seed g }
    let (recips, evs) := es_wrap_loop cek (g + 1) to_keys
    let prot : List (String × HVal) :=
      [("alg", .str "ECDH-ES+A256KW"), ("enc", .str "XC20P")]
    let aad : Bytes := .protectedB64 prot
    (.ok { protected_header := prot, recipients := recips,
           ciphertext := .ctxt cek message aad,
           iv := .nonce cek message, tag := .tag cek message aad },
     .genKey cek false :: evs ++ [.setProtected prot, .aeadEncrypt cek message aad])

/- ## AskarCryptoService.ecdh_es_decrypt -/

/-- The `alg` validation step of `ecdh_es_decrypt`. -/
def esAlgCheck (w : JweEnvelope) : Except PyErr String :=
  match headerStr w.protected_header "alg" with
  | some a =>
    if a = "ECDH-ES+A128KW" ∨ a = "ECDH-ES+A256KW" then .ok a
    else .error (.cryptoServiceError ("Missing or unsupported ECDH-ES algorithm: " ++ a))
  | none =>
    .error (.cryptoServiceError "Missing or unsupported ECDH-ES algorithm: None")

/-- The supported content-encryption identifiers of `ecdh_es_decrypt`. -/
def esEncSet : List String :=
  ["A128GCM", "A256GCM", "A128CBC-HS256", "A256CBC-HS512", "XC20P"]

/-- The `enc` validation step of `ecdh_es_decrypt`, reading `enc` through
the recipient's combined header. -/
def esEncCheck (recip : JweRecipient) : Except PyErr String :=
  match headerStr recip.header "enc" with
  | some e =>
    if esEncSet.contains e then .ok e
    else .error (.cryptoServiceError ("Unsupported ECDH-ES content encryption: " ++ e))
  | none =>
    .error (.cryptoServiceError "Unsupported ECDH-ES content encryption: None")

/-- The `epk` presence check of the decrypt paths. -/
def epkCheck (recip : JweRecipient) : Except PyErr HVal :=
  match recip.header.lookup "epk" with
  | some v =>
    if truthyHVal (some v) then .ok v
    else .error (.cryptoServiceError "Missing ephemeral key")
  | none => .error (.cryptoServiceError "Missing ephemeral key")

/-- `AskarCryptoService.ecdh_es_decrypt`: DIDComm v2 anonymous decryption
of a parsed envelope, with the trace of primitive key operations. -/
def ecdh_es_decrypt (wrapper : JweEnvelope) (recip_key : AskarKey) :
    Except PyErr Bytes × List Ev :=
  match esAlgCheck wrapper with
  | .error e => (.error e, [])
  | .ok alg_id =>
    match get_recipient wrapper recip_key.kid with
    | none =>
      (.error (.cryptoServiceError ("Recipient header not found: " ++ recip_key.kid)), [])
    | some recip =>
      match esEncCheck recip with
      | .error e => (.error e, [])
      | .ok enc_alg =>
        match epkCheck recip with
        | .error e => (.error e, [])
        | .ok epk_header =>
          match from_jwk epk_header with
          | .error _ => (.error (.cryptoServiceError "Error loading ephemeral key"), [.loadJwk])
          | .ok epk =>
            let apu := headerStr recip.header "apu"
            let apv := headerStr recip.header "apv"
            match receiver_unwrap_es alg_id apu apv (alg_id.drop 8) enc_alg epk
                recip_key.key recip.encrypted_key with
            | .error _ =>
              (.error (.cryptoServiceError "Error decrypting content encryption key"),
               [.loadJwk, .unwrapKey])
            | .ok cek =>
              match aead_decrypt cek wrapper.ciphertext wrapper.iv wrapper.tag
                  (combined_aad wrapper) with
              | .error _ =>
                (.error (.cryptoServiceError "Error decrypting message payload"),
                 [.loadJwk, .unwrapKey, .aeadDecrypt])
              | .ok plaintext => (.ok plaintext, [.loadJwk, .unwrapKey, .aeadDecrypt])

/- ## Concrete fixtures used by witnesses and counterexamples -/

/-- A trivial multibase decoder returning thirty-two bytes, used to
instantiate the external decoder at concrete inputs. -/
def decode32 : String → List Nat := fun _ => List.replicate 32 1

/-- The spec's concrete verification-method record (W3C field name
`publicKeyMultibase`). -/
def c2Vm : List (String × String) :=
  [("id", "#6LSqPZfn"), ("type", "X25519KeyAgreementKey2020"),
   ("publicKeyMultibase", "z6LSqPZfn9krvgXma2icTMKf2uVcYhKXsudCmPoUzqGYW24U"),
   ("controller", "did:example:123")]

/-- The spec's concrete verification-method record with the key-material
field spelled the way the source looks it up (`publicKeyMultiBase`). -/
def c2VmCamel : List (String × String) :=
  [("id", "#6LSqPZfn"), ("type", "X25519KeyAgreementKey2020"),
   ("publicKeyMultiBase", "z6LSqPZfn9krvgXma2icTMKf2uVcYhKXsudCmPoUzqGYW24U"),
   ("controller", "did:example:123")]

/-- A store holding a key whose algorithm has no multikey codec. -/
def c10Store : List (String × AKey) :=
  [("kid1", { alg := .a256kw, material := .seed 0 })]

/-- A concrete X25519 recipient key fixture. -/
def wBob : AskarKey :=
  { key := { alg := .x25519, material := .seed 100 },
    kid := "did:example:bob#key-1", multikey := "" }

/-- A concrete X25519 sender key fixture. -/
def wAlice : AskarKey :=
  { key := { alg := .x25519, material := .seed 200 },
    kid := "did:example:alice#key-1", multikey := "" }

/-- A second concrete X25519 recipient key fixture. -/
def wDave : AskarKey :=
  { key := { alg := .x25519, material := .seed 400 },
    kid := "did:example:dave#key-4", multikey := "" }

/-- A concrete Ed25519 key fixture (algorithm differing from `wAlice`). -/
def wCarol : AskarKey :=
  { key := { alg := .ed25519, material := .seed 300 },
    kid := "did:example:carol#key-2", multikey := "" }

/-- A concrete plaintext fixture. -/
def wMsg : Bytes := .raw [1, 2, 3]

/-- An envelope with a valid ECDH-ES `alg` whose recipient carries an
unsupported `enc` value. -/
def wEnvEsBadEnc : JweEnvelope :=
  { protected_header := [("alg", .str "ECDH-ES+A256KW")],
    recipients :=
      [{ encrypted_key := .raw [],
         header := [("kid", .str "did:example:bob#key-1"), ("enc", .str "FOO")] }],
    ciphertext := .raw [], iv := .raw [], tag := .raw [] }

/-- An envelope with a valid ECDH-1PU `alg` whose protected header carries
`enc` value `XC20P`, unsupported in authenticated mode. -/
def wEnv1puXc20p : JweEnvelope :=
  { protected_header := [("alg", .str "ECDH-1PU+A256KW"), ("enc", .str "XC20P")],
    recipients :=
      [{ encrypted_key := .raw [],
         header := [("kid", .str "did:example:bob#key-1")] }],
    ciphertext := .raw [], iv := .raw [], tag := .raw [] }

/-- Holds when a decrypt outcome is either success or the backend's typed
`CryptoServiceError` — i.e. no native primitive error escaped. -/
def allErrsCrypto (r : Except PyErr Bytes) : Bool :=
  match r with
  | .ok _ => true
  | .error (.cryptoServiceError _) => true
  | .error _ => false

/-- Whether a trace event is an ephemeral key generation. -/
def isEphGen (e : Ev) : Bool :=
  match e with
  | .genKey _ true => true
  | _ => false

/- ## AskarCryptoService.ecdh_1pu_encrypt -/

/-- The apv-building loop of `ecdh_1pu_encrypt`: collects recipient kids
while checking each recipient key's algorithm against the sender's
agreement algorithm (the source's `else` arm re-assigning `agree_alg` is
unreachable because the sender key always carries an algorithm). -/
def collectApvKids (agree_alg : KeyAlg) :
    List (String × AskarKey) → Except PyErr (List String)
  | [] => .ok []
  | (kid, recip_key) :: rest =>
    if agree_alg ≠ recip_key.key.alg then
      .error (.cryptoServiceError "Recipient key types must be consistent")
    else
      match collectApvKids agree_alg rest with
      | .error e => .error e
      | .ok kids => .ok (kid :: kids)

/-- Lexicographic code-point comparison of character lists (the order
Python's `str` comparison uses). -/
def charListLe : List Char → List Char → Bool
  | [], _ => true
  | _ :: _, [] => false
  | a :: as, b :: bs =>
    if a < b then true
    else if b < a then false
    else charListLe as bs

/-- Lexicographic code-point order on strings, as a Prop. -/
def strLe (a b : String) : Prop :=
  charListLe a.data b.data = true

instance strLe.decRel : DecidableRel strLe :=
  fun a b => instDecidableEqBool (charListLe a.data b.data) true

/-- Lexicographic sort of kid strings (Python `list.sort`). -/
def sortStrings (l : List String) : List String :=
  l.insertionSort strLe

/-- `AskarCryptoService.ecdh_1pu_encrypt`: DIDComm v2 authenticated
encryption.  Fresh keys are drawn from the seed supply starting at `g`;
the returned trace records the primitive operations in source order. -/
def ecdh_1pu_encrypt (g : Nat) (to_keys : List (String × AskarKey))
    (sender_kid : String) (sender_key : AskarKey) (message : Bytes) :
    Except PyErr JweEnvelope × List Ev :=
  let agree_alg := sender_key.key.alg
  if to_keys.isEmpty then (.error (.cryptoServiceError "No message recipients"), [])
  else
    let cek : AKey := { alg := .a256cbcHs512, material := .seed g }
    let epk : AKey := { alg := agree_alg, material := .seed (g + 1) }
    let apu := b64url sender_kid
    match collectApvKids agree_alg to_keys with
    | .error e => (.error e, [.genKey cek false, .genKey epk true])
    | .ok kids =>
      let apv := b64url (String.intercalate "." (sortStrings kids))
      let prot : List (String × HVal) :=
        [("alg", .str "ECDH-1PU+A256KW"), ("enc", .str "A256CBC-HS512"),
         ("apu", .str apu), ("apv", .str apv), ("epk", .jwk epk),
         ("skid", .str sender_kid)]
      let aad : Bytes := .protectedB64 prot
      let tg : Bytes := .tag cek message aad
      let recips := to_keys.map (fun p =>
        JweRecipient.mk
          (.wrap1pu "ECDH-1PU+A256KW" (some apu) (some apv) .a256kw epk
            sender_key.key p.2.key tg cek)
          [("kid", .str p.1)])
      (.ok { protected_header := prot, recipients := recips,
             ciphertext := .ctxt cek message aad,
             iv := .nonce cek message, tag := tg },
       [.genKey cek false, .genKey epk true, .setProtected prot,
        .aeadEncrypt cek message aad] ++
         to_keys.map (fun p => .wrapKey1pu p.1 epk tg))

/- ## AskarCryptoService.ecdh_1pu_decrypt -/

/-- The `alg` validation step of `ecdh_1pu_decrypt`. -/
def onePuAlgCheck (w : JweEnvelope) : Except PyErr String :=
  match headerStr w.protected_header "alg" with
  | some a =>
    if a = "ECDH-1PU+A128KW" ∨ a = "ECDH-1PU+A256KW" then .ok a
    else .error (.cryptoServiceError ("Unsupported ECDH-1PU algorithm: " ++ a))
  | none => .error (.cryptoServiceError "Unsupported ECDH-1PU algorithm: None")

/-- The supported content-encryption identifiers of `ecdh_1pu_decrypt`. -/
def onePuEncSet : List String :=
  ["A128CBC-HS256", "A256CBC-HS512"]

/-- The `enc` validation step of `ecdh_1pu_decrypt`, reading `enc` from
the protected header. -/
def onePuEncCheck (w : JweEnvelope) : Except PyErr String :=
  match headerStr w.protected_header "enc" with
  | some e =>
    if onePuEncSet.contains e then .ok e
    else .error (.cryptoServiceError ("Unsupported ECDH-1PU content encryption: " ++ e))
  | none =>
    .error (.cryptoServiceError "Unsupported ECDH-1PU content encryption: None")

/-- `AskarCryptoService.ecdh_1pu_decrypt`: DIDComm v2 authenticated
decryption of a parsed envelope, with the trace of primitive key
operations. -/
def ecdh_1pu_decrypt (wrapper : JweEnvelope) (recip_key sender_key : AskarKey) :
    Except PyErr Bytes × List Ev :=
  match onePuAlgCheck wrapper with
  | .error e => (.error e, [])
  | .ok alg_id =>
    match onePuEncCheck wrapper with
    | .error e => (.error e, [])
    | .ok enc_alg =>
      match get_recipient wrapper recip_key.kid with
      | none =>
        (.error (.cryptoServiceError ("Recipient header not found: " ++ recip_key.kid)), [])
      | some recip =>
        match epkCheck recip with
        | .error e => (.error e, [])
        | .ok epk_header =>
          match from_jwk epk_header with
          | .error _ => (.error (.cryptoServiceError "Error loading ephemeral key"), [.loadJwk])
          | .ok epk =>
            let apu := headerStr wrapper.protected_header "apu"
            let apv := headerStr wrapper.protected_header "apv"
            match receiver_unwrap_1pu alg_id apu apv (alg_id.drop 9) enc_alg epk
                sender_key.key recip_key.key recip.encrypted_key wrapper.tag with
            | .error _ =>
              (.error (.cryptoServiceError "Error decrypting content encryption key"),
               [.loadJwk, .unwrapKey])
            | .ok cek =>
              match aead_decrypt cek wrapper.ciphertext wrapper.iv wrapper.tag
                  (combined_aad wrapper) with
              | .error _ =>
                (.error (.cryptoServiceError "Error decrypting message payload"),
                 [.loadJwk, .unwrapKey, .aeadDecrypt])
              | .ok plaintext => (.ok plaintext, [.loadJwk, .unwrapKey, .aeadDecrypt])

/- ## Helper lemmas -/

lemma esAlgCheck_error_crypto (w : JweEnvelope) (e : PyErr)
    (h : esAlgCheck w = .error e) : ∃ m, e = .cryptoServiceError m := by
  unfold esAlgCheck at h
  split at h <;> [skip; exact ⟨_, (Except.error.inj h).symm⟩]
  split at h
  · exact absurd h (by simp)
  · exact ⟨_, (Except.error.inj h).symm⟩

lemma esEncCheck_error_crypto (r : JweRecipient) (e : PyErr)
    (h : esEncCheck r = .error e) : ∃ m, e = .cryptoServiceError m := by
  unfold esEncCheck at h
  split at h <;> [skip; exact ⟨_, (Except.error.inj h).symm⟩]
  split at h
  · exact absurd h (by simp)
  · exact ⟨_, (Except.error.inj h).symm⟩

lemma epkCheck_error_crypto (r : JweRecipient) (e : PyErr)
    (h : epkCheck r = .error e) : ∃ m, e = .cryptoServiceError m := by
  unfold epkCheck at h
  split at h <;> [skip; exact ⟨_, (Except.error.inj h).symm⟩]
  split at h
  · exact absurd h (by simp)
  · exact ⟨_, (Except.error.inj h).symm⟩

lemma onePuAlgCheck_error_crypto (w : JweEnvelope) (e : PyErr)
    (h : onePuAlgCheck w = .error e) : ∃ m, e = .cryptoServiceError m := by
  unfold onePuAlgCheck at h
  split at h <;> [skip; exact ⟨_, (Except.error.inj h).symm⟩]
  split at h
  · exact absurd h (by simp)
  · exact ⟨_, (Except.error.inj h).symm⟩

lemma onePuEncCheck_error_crypto (w : JweEnvelope) (e : PyErr)
    (h : onePuEncCheck w = .error e) : ∃ m, e = .cryptoServiceError m := by
  unfold onePuEncCheck at h
  split at h <;> [skip; exact ⟨_, (Except.error.inj h).symm⟩]
  split at h
  · exact absurd h (by simp)
  · exact ⟨_, (Except.error.inj h).symm⟩

/- ## Claim theorems -/

/-- C8: calling either encryption operation with an empty recipient mapping
fails with a no-recipients error, returns no envelope, and performs no key
generation or cryptographic operation (the trace is empty). -/
theorem c8_empty_recipients_rejected (g : Nat) (msg : Bytes) (skid : String)
    (sk : AskarKey) :
    ecdh_es_encrypt g [] msg = (.error (.valueError "No message recipients"), []) ∧
    ecdh_1pu_encrypt g [] skid sk msg =
      (.error (.cryptoServiceError "No message recipients"), []) :=
  ⟨rfl, rfl⟩

/-- C2: the spec's concrete verification-method record fails to resolve —
the source reads the key-material field under the name `publicKeyMultiBase`
(capital B), so both material fields read as absent and it raises — and
even with the field spelled the way the source expects, the resolved kid is
`did:example:123##6LSqPZfn` (controller + `#` + id, with id already
starting with `#`), not `did:example:123#6LSqPZfn`. -/
theorem c2_verification_method_scenario :
    (∀ decode, from_verification_method decode c2Vm =
      .error (.valueError "One of public_key_multibase or public_key_base58 must be given)")) ∧
    (from_verification_method decode32 c2VmCamel).toOption.map AskarKey.kid =
      some "did:example:123##6LSqPZfn" :=
  ⟨fun _ => rfl, rfl⟩

/-- C10 counterexample: the backing store holds a key entry for `kid1`, but
fetching it raises (the stored key's algorithm has no multikey codec, so
the key-wrapper constructor fails) instead of returning a key object. -/
theorem c10_counterexample :
    fetch_key_by_kid c10Store "kid1" = .error (.valueError "Unsupported key type") ∧
    (c10Store.lookup "kid1").isSome = true ∧
    ∀ r, fetch_key_by_kid c10Store "kid1" ≠ .ok r := by
  refine ⟨rfl, rfl, ?_⟩
  intro r h
  rw [show fetch_key_by_kid c10Store "kid1" =
    .error (.valueError "Unsupported key type") from rfl] at h
  exact absurd h (by simp)

/-- C10 (amended): `fetch_key_by_kid` returns `none` exactly when the store
holds no entry for the kid (no error for an absent key), and for a present
entry whose algorithm has a multikey codec it returns a key object whose
kid equals the requested kid. -/
theorem c10_fetch_key_by_kid_amended (store : List (String × AKey)) (kid : String) :
    (fetch_key_by_kid store kid = .ok none ↔ store.lookup kid = none) ∧
    (∀ k, store.lookup kid = some k → (alg_to_codec k.alg).isSome →
      ∃ ak, fetch_key_by_kid store kid = .ok (some ak) ∧ ak.kid = kid) := by
  constructor
  · cases h : store.lookup kid with
    | none => simp [fetch_key_by_kid, h]
    | some k =>
      simp only [fetch_key_by_kid, h]
      cases halg : alg_to_codec k.alg <;> simp [AskarKey.init, halg]
  · intro k hk hcodec
    cases halg : alg_to_codec k.alg with
    | none => rw [halg] at hcodec; simp at hcodec
    | some codec =>
      exact ⟨⟨k, kid, multibaseEncode58 (multicodecWrap codec (pubBytes k))⟩,
        by simp [fetch_key_by_kid, hk, AskarKey.init, halg], rfl⟩

/-- C10 witness: a present X25519 entry is fetched as a key object whose
kid equals the requested kid. -/
theorem c10_witness :
    ∃ ak, fetch_key_by_kid [("k", AKey.mk .x25519 (.seed 0))] "k" = .ok (some ak) ∧
      ak.kid = "k" :=
  (c10_fetch_key_by_kid_amended [("k", AKey.mk .x25519 (.seed 0))] "k").2
    (AKey.mk .x25519 (.seed 0)) rfl (by decide)

/-- C6: on both decryption paths every failure, including a primitive
failure during CEK unwrapping and a primitive failure during AEAD payload
decryption, surfaces as the backend's typed `CryptoServiceError`; the
primitive library's native error is never propagated to the caller. -/
theorem c6_opaque_decryption_errors (w : JweEnvelope) (rk sk : AskarKey) :
    allErrsCrypto (ecdh_es_decrypt w rk).1 = true ∧
    allErrsCrypto (ecdh_1pu_decrypt w rk sk).1 = true := by
  constructor
  · unfold ecdh_es_decrypt
    split
    · rename_i e h
      obtain ⟨m, rfl⟩ := esAlgCheck_error_crypto _ e h
      rfl
    · split
      · rfl
      · split
        · rename_i e h
          obtain ⟨m, rfl⟩ := esEncCheck_error_crypto _ e h
          rfl
        · split
          · rename_i e h
            obtain ⟨m, rfl⟩ := epkCheck_error_crypto _ e h
            rfl
          · dsimp only
            split
            · rfl
            · split
              · rfl
              · split <;> rfl
  · unfold ecdh_1pu_decrypt
    split
    · rename_i e h
      obtain ⟨m, rfl⟩ := onePuAlgCheck_error_crypto _ e h
      rfl
    · split
      · rename_i e h
        obtain ⟨m, rfl⟩ := onePuEncCheck_error_crypto _ e h
        rfl
      · split
        · rfl
        · split
          · rename_i e h
            obtain ⟨m, rfl⟩ := epkCheck_error_crypto _ e h
            rfl
          · dsimp only
            split
            · rfl
            · split
              · rfl
              · split <;> rfl

/-- C5: on decryption, an `enc` value outside the supported set is rejected
with an error before any key material is touched (empty trace): the
anonymous path accepts only its five identifiers, the authenticated path
only the two CBC-HMAC identifiers, so `XC20P` is never accepted there. -/
theorem c5_unsupported_enc_rejected :
    (∀ (w : JweEnvelope) (rk : AskarKey) (a : String) (recip : JweRecipient)
        (e : String), esAlgCheck w = .ok a → get_recipient w rk.kid = some recip →
      headerStr recip.header "enc" = some e → e ∉ esEncSet →
      ecdh_es_decrypt w rk =
        (.error (.cryptoServiceError ("Unsupported ECDH-ES content encryption: " ++ e)), [])) ∧
    (∀ (w : JweEnvelope) (rk sk : AskarKey) (a e : String),
      onePuAlgCheck w = .ok a → headerStr w.protected_header "enc" = some e →
      e ∉ onePuEncSet →
      ecdh_1pu_decrypt w rk sk =
        (.error (.cryptoServiceError ("Unsupported ECDH-1PU content encryption: " ++ e)), [])) ∧
    (∀ (w : JweEnvelope) (rk sk : AskarKey) (a : String),
      onePuAlgCheck w = .ok a → headerStr w.protected_header "enc" = some "XC20P" →
      ecdh_1pu_decrypt w rk sk =
        (.error (.cryptoServiceError "Unsupported ECDH-1PU content encryption: XC20P"), [])) := by
  refine ⟨?_, ?_, ?_⟩
  · intro w rk a recip e halg hrecip henc hcont
    simp [ecdh_es_decrypt, halg, hrecip, esEncCheck, henc, hcont]
  · intro w rk sk a e halg henc hcont
    simp [ecdh_1pu_decrypt, halg, onePuEncCheck, henc, hcont]
  · intro w rk sk a halg henc
    simp [ecdh_1pu_decrypt, halg, onePuEncCheck, henc, onePuEncSet]

/-- C5 witness: concrete envelopes with unsupported `enc` values are
rejected on both paths, and `XC20P` is rejected in authenticated mode. -/
theorem c5_witness :
    ecdh_es_decrypt wEnvEsBadEnc wBob =
      (.error (.cryptoServiceError "Unsupported ECDH-ES content encryption: FOO"), []) ∧
    ecdh_1pu_decrypt wEnv1puXc20p wBob wAlice =
      (.error (.cryptoServiceError "Unsupported ECDH-1PU content encryption: XC20P"), []) :=
  ⟨c5_unsupported_enc_rejected.1 wEnvEsBadEnc wBob "ECDH-ES+A256KW"
      { encrypted_key := .raw [],
        header := [("kid", .str "did:example:bob#key-1"), ("enc", .str "FOO"),
                   ("alg", .str "ECDH-ES+A256KW")] } "FOO" rfl rfl rfl (by decide),
   c5_unsupported_enc_rejected.2.2 wEnv1puXc20p wBob wAlice "ECDH-1PU+A256KW" rfl rfl⟩

lemma collectApvKids_error (agree : KeyAlg) :
    ∀ l : List (String × AskarKey), (∃ p ∈ l, p.2.key.alg ≠ agree) →
    collectApvKids agree l =
      .error (.cryptoServiceError "Recipient key types must be consistent") := by
  intro l
  induction l with
  | nil => rintro ⟨p, hp, _⟩; cases hp
  | cons hd tl ih =>
    rintro ⟨p, hp, hne⟩
    obtain ⟨kid0, k0⟩ := hd
    by_cases hx : agree = k0.key.alg
    · have hptl : p ∈ tl := by
        rcases List.mem_cons.mp hp with heq | htl
        · rw [heq] at hne
          exact absurd hx.symm hne
        · exact htl
      unfold collectApvKids
      rw [if_neg (not_not_intro hx), ih ⟨p, hptl, hne⟩]
    · unfold collectApvKids
      rw [if_pos hx]

/-- C9: in authenticated encryption, a recipient key whose algorithm
differs from the sender's agreement algorithm makes the operation fail
with the inconsistent-recipient-algorithms error during the apv-building
loop: the trace contains only the CEK and ephemeral key generations — no
protected-header set, no payload encryption and no CEK wrapping. -/
theorem c9_inconsistent_recipient_algs (g : Nat) (tks : List (String × AskarKey))
    (skid : String) (sk : AskarKey) (msg : Bytes)
    (h : ∃ p ∈ tks, p.2.key.alg ≠ sk.key.alg) :
    ecdh_1pu_encrypt g tks skid sk msg =
      (.error (.cryptoServiceError "Recipient key types must be consistent"),
       [.genKey { alg := .a256cbcHs512, material := .seed g } false,
        .genKey { alg := sk.key.alg, material := .seed (g + 1) } true]) := by
  have hc := collectApvKids_error sk.key.alg tks h
  cases tks with
  | nil => obtain ⟨p, hp, _⟩ := h; cases hp
  | cons hd tl =>
    simp [ecdh_1pu_encrypt, hc]

/-- C9 witness: a recipient whose key algorithm differs from the sender's
is rejected before any wrapping at a concrete input. -/
theorem c9_witness :
    ecdh_1pu_encrypt 0 [("did:example:carol#key-2", wCarol)]
        "did:example:alice#key-1" wAlice wMsg =
      (.error (.cryptoServiceError "Recipient key types must be consistent"),
       [.genKey { alg := .a256cbcHs512, material := .seed 0 } false,
        .genKey { alg := .x25519, material := .seed 1 } true]) :=
  c9_inconsistent_recipient_algs 0 [("did:example:carol#key-2", wCarol)]
    "did:example:alice#key-1" wAlice wMsg
    ⟨("did:example:carol#key-2", wCarol), by simp, by decide⟩

/-- C7: legacy key-material resolution requires exactly one of
`publicKeyMultibase`/`publicKeyBase58` (both present or both absent is an
error); multibase material decoding to exactly 32 bytes is imported
directly as raw key bytes under the type-implied algorithm, while any other
length is treated as multicodec-wrapped and fails with the
algorithm-mismatch error whenever the embedded codec's algorithm differs
from the type-implied one. -/
theorem c7_key_material_resolution (decode : String → List Nat) (alg : KeyAlg)
    (mb b58 : Option String) :
    (truthy mb = true → truthy b58 = true →
      expected_alg_and_material_to_key decode alg mb b58 =
        .error (.valueError "Only one of public_key_multibase or public_key_base58 must be given")) ∧
    (truthy mb = false → truthy b58 = false →
      expected_alg_and_material_to_key decode alg mb b58 =
        .error (.valueError "One of public_key_multibase or public_key_base58 must be given)")) ∧
    (∀ m, mb = some m → truthy mb = true → truthy b58 = false →
      (decode m).length = 32 → validPubLen alg 32 = true →
      expected_alg_and_material_to_key decode alg mb b58 =
        .ok { alg := alg, material := .raw (decode m) }) ∧
    (∀ m cn kb a2, mb = some m → truthy mb = true → truthy b58 = false →
      (decode m).length ≠ 32 → multicodecUnwrap (decode m) = .ok (cn, kb) →
      codec_to_alg cn = some a2 → validPubLen a2 kb.length = true → a2 ≠ alg →
      expected_alg_and_material_to_key decode alg mb b58 =
        .error (.valueError "Type and algorithm mismatch")) := by
  refine ⟨?_, ?_, ?_, ?_⟩
  · intro h1 h2
    simp [expected_alg_and_material_to_key, h1, h2]
  · intro h1 h2
    simp [expected_alg_and_material_to_key, h1, h2]
  · intro m hmb hm hb hlen hvalid
    subst hmb
    simp [expected_alg_and_material_to_key, hm, hb, hlen, fromPublicBytes, hvalid]
  · intro m cn kb a2 hmb hm hb hlen hunwrap hcodec hvalid hne
    subst hmb
    simp [expected_alg_and_material_to_key, hm, hb, hlen, multikey_to_key,
      hunwrap, hcodec, fromPublicBytes, hvalid, hne]

/-- C7 witness: the four behaviours at concrete inputs — both fields
present, both absent, a 32-byte raw X25519 import, and a multicodec-wrapped
Ed25519 key under an X25519-typed method failing with the mismatch error. -/
theorem c7_witness :
    expected_alg_and_material_to_key decode32 .x25519 (some "m") (some "b") =
      .error (.valueError "Only one of public_key_multibase or public_key_base58 must be given") ∧
    expected_alg_and_material_to_key decode32 .x25519 none none =
      .error (.valueError "One of public_key_multibase or public_key_base58 must be given)") ∧
    expected_alg_and_material_to_key decode32 .x25519 (some "m") none =
      .ok { alg := .x25519, material := .raw (List.replicate 32 1) } ∧
    expected_alg_and_material_to_key
        (fun _ => 0xed :: 0x01 :: List.replicate 32 1) .x25519 (some "m") none =
      .error (.valueError "Type and algorithm mismatch") :=
  ⟨(c7_key_material_resolution decode32 .x25519 (some "m") (some "b")).1
      (by decide) (by decide),
   (c7_key_material_resolution decode32 .x25519 none none).2.1 rfl rfl,
   (c7_key_material_resolution decode32 .x25519 (some "m") none).2.2.1 "m" rfl
      (by decide) rfl (by decide) (by decide),
   (c7_key_material_resolution (fun _ => 0xed :: 0x01 :: List.replicate 32 1)
      .x25519 (some "m") none).2.2.2 "m" "ed25519-pub" (List.replicate 32 1)
      .ed25519 rfl (by decide) rfl (by decide) rfl rfl
      (by decide) (by decide)⟩

lemma charListLe_total : ∀ a b : List Char, charListLe a b = true ∨ charListLe b a = true := by
  intro a
  induction a with
  | nil => intro b; left; rfl
  | cons x xs ih =>
    intro b
    cases b with
    | nil => right; rfl
    | cons y ys =>
      unfold charListLe
      rcases lt_trichotomy x y with h | h | h
      · left; simp [h]
      · subst h
        simp only [lt_irrefl, if_false, ite_false]
        exact ih ys
      · right; simp [h]

lemma charListLe_trans : ∀ a b c : List Char, charListLe a b = true →
    charListLe b c = true → charListLe a c = true := by
  intro a
  induction a with
  | nil => intro b c _ _; rfl
  | cons x xs ih =>
    intro b c hab hbc
    cases b with
    | nil => simp [charListLe] at hab
    | cons y ys =>
      cases c with
      | nil => simp [charListLe] at hbc
      | cons z zs =>
        unfold charListLe at hab hbc ⊢
        by_cases h1 : x < y
        · by_cases h2 : y < z
          · simp [lt_trans h1 h2]
          · by_cases h3 : z < y
            · simp [h2, h3] at hbc
            · have hyz : y = z := le_antisymm (not_lt.mp h3) (not_lt.mp h2)
              subst hyz
              simp [h1]
        · by_cases h1' : y < x
          · simp [h1, h1'] at hab
          · have hxy : x = y := le_antisymm (not_lt.mp h1') (not_lt.mp h1)
            subst hxy
            simp only [lt_irrefl, if_false, ite_false] at hab
            by_cases h2 : x < z
            · simp [h2]
            · by_cases h3 : z < x
              · simp [h2, h3] at hbc
              · have hxz : x = z := le_antisymm (not_lt.mp h3) (not_lt.mp h2)
                subst hxz
                simp only [lt_irrefl, if_false, ite_false] at hbc ⊢
                exact ih ys zs hab hbc

lemma charListLe_antisymm : ∀ a b : List Char, charListLe a b = true →
    charListLe b a = true → a = b := by
  intro a
  induction a with
  | nil =>
    intro b _ hba
    cases b with
    | nil => rfl
    | cons y ys => simp [charListLe] at hba
  | cons x xs ih =>
    intro b hab hba
    cases b with
    | nil => simp [charListLe] at hab
    | cons y ys =>
      unfold charListLe at hab hba
      by_cases h1 : x < y
      · simp [h1, lt_asymm h1] at hba
      · by_cases h2 : y < x
        · simp [h1, h2] at hab
        · have hxy : x = y := le_antisymm (not_lt.mp h2) (not_lt.mp h1)
          subst hxy
          simp only [lt_irrefl, if_false, ite_false] at hab hba
          rw [ih ys hab hba]

instance : IsTotal String strLe :=
  ⟨fun a b => charListLe_total a.data b.data⟩

instance : IsTrans String strLe :=
  ⟨fun a b c => charListLe_trans a.data b.data c.data⟩

instance : IsAntisymm String strLe :=
  ⟨fun a b hab hba => by
    cases a; cases b
    exact congrArg String.mk (charListLe_antisymm _ _ hab hba)⟩

lemma sortStrings_eq_of_perm {l₁ l₂ : List String} (h : l₁.Perm l₂) :
    sortStrings l₁ = sortStrings l₂ :=
  List.eq_of_perm_of_sorted
    ((List.perm_insertionSort strLe l₁).trans (h.trans (List.perm_insertionSort strLe l₂).symm))
    (List.sorted_insertionSort strLe l₁) (List.sorted_insertionSort strLe l₂)

lemma collectApvKids_ok_keys (agree : KeyAlg) :
    ∀ (l : List (String × AskarKey)) (kids : List String),
    collectApvKids agree l = .ok kids → kids = l.map Prod.fst := by
  intro l
  induction l with
  | nil =>
    intro kids h
    simp only [collectApvKids] at h
    simp [← Except.ok.inj h]
  | cons hd tl ih =>
    intro kids h
    obtain ⟨kid0, k0⟩ := hd
    unfold collectApvKids at h
    split at h
    · exact absurd h (by simp)
    · split at h
      · exact absurd h (by simp)
      · rename_i kids' hc
        rw [← Except.ok.inj h, ih kids' hc]
        rfl

lemma collectApvKids_ok_of_all (agree : KeyAlg) :
    ∀ l : List (String × AskarKey), (∀ p ∈ l, p.2.key.alg = agree) →
    collectApvKids agree l = .ok (l.map Prod.fst) := by
  intro l
  induction l with
  | nil => intro _; rfl
  | cons hd tl ih =>
    intro hall
    obtain ⟨kid0, k0⟩ := hd
    unfold collectApvKids
    rw [if_neg (not_not_intro (hall (kid0, k0) (by simp)).symm),
      ih (fun p hp => hall p (List.mem_cons_of_mem _ hp))]
    rfl

lemma onePu_ok_apv (g : Nat) (tks : List (String × AskarKey)) (skid : String)
    (sk : AskarKey) (msg : Bytes) (env : JweEnvelope)
    (h : (ecdh_1pu_encrypt g tks skid sk msg).1 = .ok env) :
    headerStr env.protected_header "apv" =
      some (b64url (String.intercalate "." (sortStrings (tks.map Prod.fst)))) := by
  unfold ecdh_1pu_encrypt at h
  dsimp only at h
  split at h
  · exact absurd h (by simp)
  · split at h
    · exact absurd h (by simp)
    · rename_i kids hc
      rw [collectApvKids_ok_keys _ _ _ hc] at h
      rw [← Except.ok.inj h]
      rfl

/-- C4: in authenticated encryption the `apv` protected-header value equals
the base64url encoding of the recipient kids sorted lexicographically and
joined with `.`, so two calls over the same kid multiset supplied in
different orders produce identical `apv` values. -/
theorem c4_apv_canonicalization :
    (∀ (g : Nat) (tks : List (String × AskarKey)) (skid : String)
        (sk : AskarKey) (msg : Bytes) (env : JweEnvelope),
      (ecdh_1pu_encrypt g tks skid sk msg).1 = .ok env →
      headerStr env.protected_header "apv" =
        some (b64url (String.intercalate "." (sortStrings (tks.map Prod.fst))))) ∧
    (∀ (g₁ : Nat) (tks₁ : List (String × AskarKey)) (skid₁ : String)
        (sk₁ : AskarKey) (msg₁ : Bytes) (env₁ : JweEnvelope)
        (g₂ : Nat) (tks₂ : List (String × AskarKey)) (skid₂ : String)
        (sk₂ : AskarKey) (msg₂ : Bytes) (env₂ : JweEnvelope),
      (tks₁.map Prod.fst).Perm (tks₂.map Prod.fst) →
      (ecdh_1pu_encrypt g₁ tks₁ skid₁ sk₁ msg₁).1 = .ok env₁ →
      (ecdh_1pu_encrypt g₂ tks₂ skid₂ sk₂ msg₂).1 = .ok env₂ →
      headerStr env₁.protected_header "apv" = headerStr env₂.protected_header "apv") := by
  refine ⟨fun g tks skid sk msg env h => onePu_ok_apv g tks skid sk msg env h, ?_⟩
  intro g₁ tks₁ skid₁ sk₁ msg₁ env₁ g₂ tks₂ skid₂ sk₂ msg₂ env₂ hperm h₁ h₂
  rw [onePu_ok_apv g₁ tks₁ skid₁ sk₁ msg₁ env₁ h₁,
    onePu_ok_apv g₂ tks₂ skid₂ sk₂ msg₂ env₂ h₂,
    sortStrings_eq_of_perm hperm]

/-- C4 witness: encrypting to the same two recipients in both input orders
succeeds and produces identical `apv` header values. -/
theorem c4_witness :
    ∃ env₁ env₂,
      (ecdh_1pu_encrypt 0 [("did:example:bob#key-1", wBob), ("did:example:dave#key-4", wDave)]
        "did:example:alice#key-1" wAlice wMsg).1 = .ok env₁ ∧
      (ecdh_1pu_encrypt 0 [("did:example:dave#key-4", wDave), ("did:example:bob#key-1", wBob)]
        "did:example:alice#key-1" wAlice wMsg).1 = .ok env₂ ∧
      headerStr env₁.protected_header "apv" = headerStr env₂.protected_header "apv" := by
  refine ⟨_, _, rfl, rfl, ?_⟩
  exact c4_apv_canonicalization.2 0
    [("did:example:bob#key-1", wBob), ("did:example:dave#key-4", wDave)]
    "did:example:alice#key-1" wAlice wMsg _ 0
    [("did:example:dave#key-4", wDave), ("did:example:bob#key-1", wBob)]
    "did:example:alice#key-1" wAlice wMsg _ (by decide) rfl rfl

/-- C3: in authenticated encryption exactly one ephemeral key is generated
for the entire message, and the trace is exactly: CEK generation, the one
ephemeral generation, protected-header set, AEAD payload encryption under
the CEK with the protected header as AAD, and only then one CEK wrap per
recipient, each receiving the payload encryption's tag as `cc_tag` and the
one shared ephemeral key. -/
theorem c3_single_ephemeral_ordered_wraps (g : Nat) (tks : List (String × AskarKey))
    (skid : String) (sk : AskarKey) (msg : Bytes) (hne : tks ≠ [])
    (hall : ∀ p ∈ tks, p.2.key.alg = sk.key.alg) :
    ∃ prot : List (String × HVal),
      (ecdh_1pu_encrypt g tks skid sk msg).2 =
        [.genKey { alg := .a256cbcHs512, material := .seed g } false,
         .genKey { alg := sk.key.alg, material := .seed (g + 1) } true,
         .setProtected prot,
         .aeadEncrypt { alg := .a256cbcHs512, material := .seed g } msg (.protectedB64 prot)] ++
        tks.map (fun p => Ev.wrapKey1pu p.1 { alg := sk.key.alg, material := .seed (g + 1) }
          (.tag { alg := .a256cbcHs512, material := .seed g } msg (.protectedB64 prot))) ∧
      ((ecdh_1pu_encrypt g tks skid sk msg).2.countP isEphGen) = 1 := by
  have hc := collectApvKids_ok_of_all sk.key.alg tks hall
  cases tks with
  | nil => exact absurd rfl hne
  | cons hd tl =>
    have htr : (ecdh_1pu_encrypt g (hd :: tl) skid sk msg).2 =
        [.genKey { alg := .a256cbcHs512, material := .seed g } false,
         .genKey { alg := sk.key.alg, material := .seed (g + 1) } true,
         .setProtected
           [("alg", .str "ECDH-1PU+A256KW"), ("enc", .str "A256CBC-HS512"),
            ("apu", .str (b64url skid)),
            ("apv", .str (b64url (String.intercalate "."
              (sortStrings ((hd :: tl).map Prod.fst))))),
            ("epk", .jwk { alg := sk.key.alg, material := .seed (g + 1) }),
            ("skid", .str skid)],
         .aeadEncrypt { alg := .a256cbcHs512, material := .seed g } msg
           (.protectedB64
             [("alg", .str "ECDH-1PU+A256KW"), ("enc", .str "A256CBC-HS512"),
              ("apu", .str (b64url skid)),
              ("apv", .str (b64url (String.intercalate "."
                (sortStrings ((hd :: tl).map Prod.fst))))),
              ("epk", .jwk { alg := sk.key.alg, material := .seed (g + 1) }),
              ("skid", .str skid)])] ++
        (hd :: tl).map (fun p => Ev.wrapKey1pu p.1
          { alg := sk.key.alg, material := .seed (g + 1) }
          (.tag { alg := .a256cbcHs512, material := .seed g } msg
            (.protectedB64
              [("alg", .str "ECDH-1PU+A256KW"), ("enc", .str "A256CBC-HS512"),
               ("apu", .str (b64url skid)),
               ("apv", .str (b64url (String.intercalate "."
                 (sortStrings ((hd :: tl).map Prod.fst))))),
               ("epk", .jwk { alg := sk.key.alg, material := .seed (g + 1) }),
               ("skid", .str skid)]))) := by
      simp [ecdh_1pu_encrypt, hc]
    refine ⟨_, htr, ?_⟩
    rw [htr]
    have h5 : ∀ (p : String × AskarKey), (fun e => isEphGen e)
        ((fun p => Ev.wrapKey1pu p.1 { alg := sk.key.alg, material := .seed (g + 1) }
          (.tag { alg := .a256cbcHs512, material := .seed g } msg
            (.protectedB64
              [("alg", .str "ECDH-1PU+A256KW"), ("enc", .str "A256CBC-HS512"),
               ("apu", .str (b64url skid)),
               ("apv", .str (b64url (String.intercalate "."
                 (sortStrings ((hd :: tl).map Prod.fst))))),
               ("epk", .jwk { alg := sk.key.alg, material := .seed (g + 1) }),
               ("skid", .str skid)]))) p) = false := fun _ => rfl
    simp [List.countP_append, List.countP_cons, List.countP_map, Function.comp,
      isEphGen, h5]

/-- C3 witness: the trace shape at a concrete single-recipient input —
one ephemeral generation, header set, payload encryption, then the wrap
carrying the payload tag. -/
theorem c3_witness :
    ∃ prot : List (String × HVal),
      (ecdh_1pu_encrypt 0 [("did:example:bob#key-1", wBob)]
        "did:example:alice#key-1" wAlice wMsg).2 =
        [.genKey { alg := .a256cbcHs512, material := .seed 0 } false,
         .genKey { alg := .x25519, material := .seed 1 } true,
         .setProtected prot,
         .aeadEncrypt { alg := .a256cbcHs512, material := .seed 0 } wMsg (.protectedB64 prot)] ++
        [("did:example:bob#key-1", wBob)].map (fun p => Ev.wrapKey1pu p.1
          { alg := .x25519, material := .seed 1 }
          (.tag { alg := .a256cbcHs512, material := .seed 0 } wMsg (.protectedB64 prot))) ∧
      ((ecdh_1pu_encrypt 0 [("did:example:bob#key-1", wBob)]
        "did:example:alice#key-1" wAlice wMsg).2.countP isEphGen) = 1 :=
  c3_single_ephemeral_ordered_wraps 0 [("did:example:bob#key-1", wBob)]
    "did:example:alice#key-1" wAlice wMsg (by decide) (by decide)

lemma es_wrap_loop_find (cek : AKey) (kid : String) (k : AskarKey) :
    ∀ (l : List (String × AskarKey)) (g : Nat),
    (l.map Prod.fst).Nodup → (kid, k) ∈ l →
    ∃ epk : AKey,
      (es_wrap_loop cek g l).1.find?
          (fun r => decide (r.header.lookup "kid" = some (HVal.str kid))) =
        some { encrypted_key := .wrapEs "ECDH-ES+A256KW" none none .a256kw epk k.key cek,
               header := [("kid", .str kid), ("epk", .jwk epk)] } := by
  intro l
  induction l with
  | nil => intro g _ hm; cases hm
  | cons hd tl ih =>
    intro g hnd hm
    obtain ⟨kid0, k0⟩ := hd
    by_cases hk : kid0 = kid
    · subst hk
      have hk0 : k0 = k := by
        rcases List.mem_cons.mp hm with heq | htl
        · exact ((Prod.mk.injEq kid0 k kid0 k0).mp heq).2.symm
        · exact absurd (List.mem_map_of_mem Prod.fst htl)
            (List.nodup_cons.mp hnd).1
      subst hk0
      refine ⟨{ alg := k0.key.alg, material := .seed g }, ?_⟩
      rw [show (es_wrap_loop cek g ((kid0, k0) :: tl)).1 =
        { encrypted_key := .wrapEs "ECDH-ES+A256KW" none none .a256kw
            { alg := k0.key.alg, material := .seed g } k0.key cek,
          header := [("kid", .str kid0),
            ("epk", .jwk { alg := k0.key.alg, material := .seed g })] } ::
          (es_wrap_loop cek (g + 1) tl).1 from rfl]
      exact List.find?_cons_of_pos _ (decide_eq_true rfl)
    · have htl : (kid, k) ∈ tl := by
        rcases List.mem_cons.mp hm with heq | htl
        · exact absurd (congrArg Prod.fst heq).symm hk
        · exact htl
      obtain ⟨epk, hfind⟩ := ih (g + 1) (List.nodup_cons.mp hnd).2 htl
      refine ⟨epk, ?_⟩
      rw [show (es_wrap_loop cek g ((kid0, k0) :: tl)).1 =
        { encrypted_key := .wrapEs "ECDH-ES+A256KW" none none .a256kw
            { alg := k0.key.alg, material := .seed g } k0.key cek,
          header := [("kid", .str kid0),
            ("epk", .jwk { alg := k0.key.alg, material := .seed g })] } ::
          (es_wrap_loop cek (g + 1) tl).1 from rfl]
      rw [List.find?_cons_of_neg _ (by
        simp only [decide_eq_true_eq]
        intro h
        exact hk (HVal.str.inj (Option.some.inj h)))]
      exact hfind

lemma es_encrypt_ok (g : Nat) (tks : List (String × AskarKey)) (msg : Bytes)
    (hne : tks ≠ []) :
    (ecdh_es_encrypt g tks msg).1 =
      .ok { protected_header := [("alg", .str "ECDH-ES+A256KW"), ("enc", .str "XC20P")],
            recipients := (es_wrap_loop { alg := .xc20p, material := .seed g } (g + 1) tks).1,
            ciphertext := .ctxt { alg := .xc20p, material := .seed g } msg
              (.protectedB64 [("alg", .str "ECDH-ES+A256KW"), ("enc", .str "XC20P")]),
            iv := .nonce { alg := .xc20p, material := .seed g } msg,
            tag := .tag { alg := .xc20p, material := .seed g } msg
              (.protectedB64 [("alg", .str "ECDH-ES+A256KW"), ("enc", .str "XC20P")]) } := by
  cases tks with
  | nil => exact absurd rfl hne
  | cons hd tl => rfl

lemma es_decrypt_ok (w : JweEnvelope) (rk : AskarKey) (recip : JweRecipient)
    (epk cek : AKey) (m : Bytes)
    (halg : esAlgCheck w = .ok "ECDH-ES+A256KW")
    (hrec : get_recipient w rk.kid = some recip)
    (henc : esEncCheck recip = .ok "XC20P")
    (hepk : epkCheck recip = .ok (.jwk epk))
    (hapu : headerStr recip.header "apu" = none)
    (hapv : headerStr recip.header "apv" = none)
    (hkey : recip.encrypted_key =
      .wrapEs "ECDH-ES+A256KW" none none .a256kw epk rk.key cek)
    (hcekalg : cek.alg = .xc20p)
    (hct : w.ciphertext = .ctxt cek m (combined_aad w))
    (hiv : w.iv = .nonce cek m)
    (htag : w.tag = .tag cek m (combined_aad w)) :
    (ecdh_es_decrypt w rk).1 = .ok m := by
  simp only [ecdh_es_decrypt, halg, hrec, henc, hepk, from_jwk, hapu, hapv, hkey,
    receiver_unwrap_es, aead_decrypt, hct, hiv, htag, hcekalg,
    show "ECDH-ES+A256KW".drop 8 = "A256KW" from rfl,
    show parseWrapAlg "A256KW" = some KeyAlg.a256kw from rfl,
    show parseEncAlg "XC20P" = some KeyAlg.xc20p from rfl]
  simp

lemma es_round_trip (g : Nat) (tks : List (String × AskarKey)) (msg : Bytes)
    (kid : String) (k rk : AskarKey)
    (hnd : (tks.map Prod.fst).Nodup) (hm : (kid, k) ∈ tks)
    (hkey : rk.key = k.key) (hkid : rk.kid = kid) :
    ∃ env, (ecdh_es_encrypt g tks msg).1 = .ok env ∧
      (ecdh_es_decrypt env rk).1 = .ok msg := by
  subst hkid
  have hne : tks ≠ [] := by rintro rfl; cases hm
  refine ⟨_, es_encrypt_ok g tks msg hne, ?_⟩
  obtain ⟨epk, hfind⟩ :=
    es_wrap_loop_find { alg := .xc20p, material := .seed g } rk.kid k tks (g + 1) hnd hm
  refine es_decrypt_ok _ rk
    { encrypted_key := .wrapEs "ECDH-ES+A256KW" none none .a256kw epk k.key
        { alg := .xc20p, material := .seed g },
      header := [("kid", .str rk.kid), ("epk", .jwk epk)] ++
        [("alg", .str "ECDH-ES+A256KW"), ("enc", .str "XC20P")] }
    epk { alg := .xc20p, material := .seed g } msg rfl ?_ rfl rfl rfl rfl
    (by rw [hkey]) rfl rfl rfl rfl
  simp [get_recipient, hfind]

lemma onePu_recips_find (apuS apvS : String) (epk skkey cek : AKey) (tg : Bytes)
    (kid : String) (k : AskarKey) :
    ∀ tks : List (String × AskarKey), (tks.map Prod.fst).Nodup → (kid, k) ∈ tks →
    (tks.map (fun p => JweRecipient.mk
        (.wrap1pu "ECDH-1PU+A256KW" (some apuS) (some apvS) .a256kw epk skkey p.2.key tg cek)
        [("kid", .str p.1)])).find?
        (fun r => decide (r.header.lookup "kid" = some (HVal.str kid))) =
      some (JweRecipient.mk
        (.wrap1pu "ECDH-1PU+A256KW" (some apuS) (some apvS) .a256kw epk skkey k.key tg cek)
        [("kid", .str kid)]) := by
  intro tks
  induction tks with
  | nil => intro _ hm; cases hm
  | cons hd tl ih =>
    intro hnd hm
    obtain ⟨kid0, k0⟩ := hd
    rw [List.map_cons]
    by_cases hk : kid0 = kid
    · subst hk
      have hk0 : k0 = k := by
        rcases List.mem_cons.mp hm with heq | htl
        · exact ((Prod.mk.injEq kid0 k kid0 k0).mp heq).2.symm
        · exact absurd (List.mem_map_of_mem Prod.fst htl)
            (List.nodup_cons.mp hnd).1
      subst hk0
      exact List.find?_cons_of_pos _ (decide_eq_true rfl)
    · have htl : (kid, k) ∈ tl := by
        rcases List.mem_cons.mp hm with heq | htl
        · exact absurd (congrArg Prod.fst heq).symm hk
        · exact htl
      rw [List.find?_cons_of_neg _ (by
        simp only [decide_eq_true_eq]
        intro h
        exact hk (HVal.str.inj (Option.some.inj h)))]
      exact ih (List.nodup_cons.mp hnd).2 htl

lemma onePu_decrypt_ok (w : JweEnvelope) (rk sk : AskarKey) (recip : JweRecipient)
    (epk cek : AKey) (m : Bytes) (apuS apvS : String)
    (halg : onePuAlgCheck w = .ok "ECDH-1PU+A256KW")
    (henc : onePuEncCheck w = .ok "A256CBC-HS512")
    (hrec : get_recipient w rk.kid = some recip)
    (hepk : epkCheck recip = .ok (.jwk epk))
    (hapu : headerStr w.protected_header "apu" = some apuS)
    (hapv : headerStr w.protected_header "apv" = some apvS)
    (hkey : recip.encrypted_key = .wrap1pu "ECDH-1PU+A256KW" (some apuS) (some apvS)
      .a256kw epk sk.key rk.key w.tag cek)
    (hcekalg : cek.alg = .a256cbcHs512)
    (hct : w.ciphertext = .ctxt cek m (combined_aad w))
    (hiv : w.iv = .nonce cek m)
    (htag : w.tag = .tag cek m (combined_aad w)) :
    (ecdh_1pu_decrypt w rk sk).1 = .ok m := by
  simp only [ecdh_1pu_decrypt, halg, henc, hrec, hepk, from_jwk, hapu, hapv, hkey,
    receiver_unwrap_1pu, aead_decrypt, hct, hiv, htag, hcekalg,
    show "ECDH-1PU+A256KW".drop 9 = "A256KW" from rfl,
    show parseWrapAlg "A256KW" = some KeyAlg.a256kw from rfl,
    show parseEncAlg "A256CBC-HS512" = some KeyAlg.a256cbcHs512 from rfl]
  simp

lemma onePu_encrypt_ok (g : Nat) (tks : List (String × AskarKey)) (skid : String)
    (sk : AskarKey) (msg : Bytes) (hne : tks ≠ [])
    (hall : ∀ p ∈ tks, p.2.key.alg = sk.key.alg) :
    (ecdh_1pu_encrypt g tks skid sk msg).1 =
      .ok { protected_header :=
              [("alg", .str "ECDH-1PU+A256KW"), ("enc", .str "A256CBC-HS512"),
               ("apu", .str (b64url skid)),
               ("apv", .str (b64url (String.intercalate "." (sortStrings (tks.map Prod.fst))))),
               ("epk", .jwk { alg := sk.key.alg, material := .seed (g + 1) }),
               ("skid", .str skid)],
            recipients := tks.map (fun p => JweRecipient.mk
              (.wrap1pu "ECDH-1PU+A256KW" (some (b64url skid))
                (some (b64url (String.intercalate "." (sortStrings (tks.map Prod.fst)))))
                .a256kw { alg := sk.key.alg, material := .seed (g + 1) }
                sk.key p.2.key
                (.tag { alg := .a256cbcHs512, material := .seed g } msg
                  (.protectedB64
                    [("alg", .str "ECDH-1PU+A256KW"), ("enc", .str "A256CBC-HS512"),
                     ("apu", .str (b64url skid)),
                     ("apv", .str (b64url (String.intercalate "." (sortStrings (tks.map Prod.fst))))),
                     ("epk", .jwk { alg := sk.key.alg, material := .seed (g + 1) }),
                     ("skid", .str skid)]))
                { alg := .a256cbcHs512, material := .seed g })
              [("kid", .str p.1)]),
            ciphertext := .ctxt { alg := .a256cbcHs512, material := .seed g } msg
              (.protectedB64
                [("alg", .str "ECDH-1PU+A256KW"), ("enc", .str "A256CBC-HS512"),
                 ("apu", .str (b64url skid)),
                 ("apv", .str (b64url (String.intercalate "." (sortStrings (tks.map Prod.fst))))),
                 ("epk", .jwk { alg := sk.key.alg, material := .seed (g + 1) }),
                 ("skid", .str skid)]),
            iv := .nonce { alg := .a256cbcHs512, material := .seed g } msg,
            tag := .tag { alg := .a256cbcHs512, material := .seed g } msg
              (.protectedB64
                [("alg", .str "ECDH-1PU+A256KW"), ("enc", .str "A256CBC-HS512"),
                 ("apu", .str (b64url skid)),
                 ("apv", .str (b64url (String.intercalate "." (sortStrings (tks.map Prod.fst))))),
                 ("epk", .jwk { alg := sk.key.alg, material := .seed (g + 1) }),
                 ("skid", .str skid)]) } := by
  have hc := collectApvKids_ok_of_all sk.key.alg tks hall
  cases tks with
  | nil => exact absurd rfl hne
  | cons hd tl => simp [ecdh_1pu_encrypt, hc]

lemma onePu_round_trip (g : Nat) (tks : List (String × AskarKey)) (skid : String)
    (sk : AskarKey) (msg : Bytes) (kid : String) (k rk sk2 : AskarKey)
    (hnd : (tks.map Prod.fst).Nodup) (hm : (kid, k) ∈ tks)
    (hall : ∀ p ∈ tks, p.2.key.alg = sk.key.alg)
    (hkey : rk.key = k.key) (hkid : rk.kid = kid) (hsk : sk2.key = sk.key) :
    ∃ env, (ecdh_1pu_encrypt g tks skid sk msg).1 = .ok env ∧
      (ecdh_1pu_decrypt env rk sk2).1 = .ok msg := by
  subst hkid
  have hne : tks ≠ [] := by rintro rfl; cases hm
  refine ⟨_, onePu_encrypt_ok g tks skid sk msg hne hall, ?_⟩
  have hfind := onePu_recips_find (b64url skid)
    (b64url (String.intercalate "." (sortStrings (tks.map Prod.fst))))
    { alg := sk.key.alg, material := .seed (g + 1) } sk.key
    { alg := .a256cbcHs512, material := .seed g }
    (.tag { alg := .a256cbcHs512, material := .seed g } msg
      (.protectedB64
        [("alg", .str "ECDH-1PU+A256KW"), ("enc", .str "A256CBC-HS512"),
         ("apu", .str (b64url skid)),
         ("apv", .str (b64url (String.intercalate "." (sortStrings (tks.map Prod.fst))))),
         ("epk", .jwk { alg := sk.key.alg, material := .seed (g + 1) }),
         ("skid", .str skid)]))
    rk.kid k tks hnd hm
  refine onePu_decrypt_ok _ rk sk2
    (JweRecipient.mk
      (.wrap1pu "ECDH-1PU+A256KW" (some (b64url skid))
        (some (b64url (String.intercalate "." (sortStrings (tks.map Prod.fst)))))
        .a256kw { alg := sk.key.alg, material := .seed (g + 1) } sk.key k.key
        (.tag { alg := .a256cbcHs512, material := .seed g } msg
          (.protectedB64
            [("alg", .str "ECDH-1PU+A256KW"), ("enc", .str "A256CBC-HS512"),
             ("apu", .str (b64url skid)),
             ("apv", .str (b64url (String.intercalate "." (sortStrings (tks.map Prod.fst))))),
             ("epk", .jwk { alg := sk.key.alg, material := .seed (g + 1) }),
             ("skid", .str skid)]))
        { alg := .a256cbcHs512, material := .seed g })
      ([("kid", HVal.str rk.kid)] ++
        [("alg", HVal.str "ECDH-1PU+A256KW"), ("enc", HVal.str "A256CBC-HS512"),
         ("apu", HVal.str (b64url skid)),
         ("apv", HVal.str (b64url (String.intercalate "." (sortStrings (tks.map Prod.fst))))),
         ("epk", HVal.jwk { alg := sk.key.alg, material := .seed (g + 1) }),
         ("skid", HVal.str skid)]))
    { alg := sk.key.alg, material := .seed (g + 1) }
    { alg := .a256cbcHs512, material := .seed g } msg (b64url skid)
    (b64url (String.intercalate "." (sortStrings (tks.map Prod.fst))))
    rfl rfl ?_ rfl rfl rfl ?_ rfl rfl rfl rfl
  · simp [get_recipient, hfind]
  · rw [hkey, hsk]

/-- C1: round-trip — decrypting the envelope produced by anonymous
encryption with any recipient's secret key returns the plaintext, and
decrypting the envelope produced by authenticated encryption with any
recipient's secret key together with the correct sender public key returns
the plaintext (the recipient mapping has unique kids, is non-empty via the
membership, and for authenticated mode carries the consistent algorithms
without which no envelope is produced). -/
theorem c1_round_trip :
    (∀ (g : Nat) (tks : List (String × AskarKey)) (msg : Bytes) (kid : String)
        (k rk : AskarKey),
      (tks.map Prod.fst).Nodup → (kid, k) ∈ tks → rk.key = k.key → rk.kid = kid →
      ∃ env, (ecdh_es_encrypt g tks msg).1 = .ok env ∧
        (ecdh_es_decrypt env rk).1 = .ok msg) ∧
    (∀ (g : Nat) (tks : List (String × AskarKey)) (skid : String)
        (sk : AskarKey) (msg : Bytes) (kid : String) (k rk sk2 : AskarKey),
      (tks.map Prod.fst).Nodup → (kid, k) ∈ tks →
      (∀ p ∈ tks, p.2.key.alg = sk.key.alg) →
      rk.key = k.key → rk.kid = kid → sk2.key = sk.key →
      ∃ env, (ecdh_1pu_encrypt g tks skid sk msg).1 = .ok env ∧
        (ecdh_1pu_decrypt env rk sk2).1 = .ok msg) :=
  ⟨fun g tks msg kid k rk hnd hm hkey hkid =>
      es_round_trip g tks msg kid k rk hnd hm hkey hkid,
   fun g tks skid sk msg kid k rk sk2 hnd hm hall hkey hkid hsk =>
      onePu_round_trip g tks skid sk msg kid k rk sk2 hnd hm hall hkey hkid hsk⟩

/-- C1 witness: both round trips at a concrete recipient and sender. -/
theorem c1_witness :
    (∃ env, (ecdh_es_encrypt 0 [("did:example:bob#key-1", wBob)] wMsg).1 = .ok env ∧
      (ecdh_es_decrypt env wBob).1 = .ok wMsg) ∧
    (∃ env, (ecdh_1pu_encrypt 0 [("did:example:bob#key-1", wBob)]
        "did:example:alice#key-1" wAlice wMsg).1 = .ok env ∧
      (ecdh_1pu_decrypt env wBob wAlice).1 = .ok wMsg) :=
  ⟨c1_round_trip.1 0 [("did:example:bob#key-1", wBob)] wMsg "did:example:bob#key-1"
      wBob wBob (by decide) (by decide) rfl rfl,
   c1_round_trip.2 0 [("did:example:bob#key-1", wBob)] "did:example:alice#key-1"
      wAlice wMsg "did:example:bob#key-1" wBob wBob wAlice (by decide) (by decide)
      (by decide) rfl rfl rfl⟩
